import Mathlib

/-!
Shallow embedding of the dispatch-and-validation layer of `src/array/kernel.cc`
(generalized SpMM / SDDMM / segment-reduce kernels of a graph-learning runtime).

The file first translates the C++ source into executable Lean definitions
(tensor handles, the three contract checkers, the sparse-format gated engines
and the four C-API entry points), then proves theorems about the stated
properties of that layer.  Parts of the runtime that the source file consumes
but that are not in the repository snapshot (the dispatch switch macros, the
broadcast-offset calculator and the graph storage engine) are modelled from
the specification and marked as such in their doc comments.
-/

namespace DglKernel

/-- Device context of a tensor or graph (dlpack convention:
device type 1 is the CPU host, 2 is the CUDA accelerator). -/
structure DLContext where
  device_type : Nat
  device_id : Nat
deriving DecidableEq, Repr

/-- Element dtype (dlpack convention: code 0 is int, 1 is uint, 2 is float,
4 is bfloat; bits is the component width). -/
structure DLDataType where
  code : Nat
  bits : Nat
  lanes : Nat
deriving DecidableEq, Repr

/-- Opaque tensor handle as consumed by `kernel.cc`: device context, dtype,
shape and a contiguity flag, plus the designated null sentinel. -/
structure NDArray where
  isNull : Bool
  ctx : DLContext
  dtype : DLDataType
  shape : List Nat
  contiguous : Bool
deriving DecidableEq, Repr

/-- Test for the designated null-tensor sentinel (`IsNullArray` in the source). -/
def IsNullArray (a : NDArray) : Bool := a.isNull

/-- Contiguity accessor (`NDArray::IsContiguous` in the source). -/
def NDArray.IsContiguous (a : NDArray) : Bool := a.contiguous

/-- The null-tensor sentinel returned by `NullArray()`. -/
def NullArray : NDArray :=
  { isNull := true, ctx := ⟨1, 0⟩, dtype := ⟨0, 0, 0⟩, shape := [0], contiguous := true }

/-- Sparse adjacency format tags (`SparseFormat` in the source). -/
inductive SparseFormat where
  | kCSR
  | kCSC
  | kCOO
deriving DecidableEq, Repr

/-- Preferred-format request codes (`csc_code`, `coo_code`, ... in the source). -/
inductive FormatCode where
  | csr
  | csc
  | coo
deriving DecidableEq, Repr

/-- The `csc_code` constant passed to `SelectFormat`. -/
def csc_code : FormatCode := FormatCode.csc

/-- The `coo_code` constant passed to `SelectFormat`. -/
def coo_code : FormatCode := FormatCode.coo

/-- Graph handle interface consumed by `kernel.cc`.  The storage engine itself
is outside the snapshot, so the handle is modelled as a record of the queries
the source makes: context, internal index dtype, number of edge types, the
endpoint vertex types of edge type 0 (`meta_graph()->FindEdge(0)`), vertex
counts per vertex type, the edge count of edge type 0, the format selector
`SelectFormat(0, code)`, and the `data` field of the CSC matrix.
`edgePermutation` is modelled from the spec: for each format it holds the
permutation array mapping the graph's canonical edge order to that format's
physical edge order, and is the null sentinel exactly when the two orders
coincide (no mapping needed). -/
structure HeteroGraph where
  ctx : DLContext
  dataType : DLDataType
  numEdgeTypes : Nat
  findEdge0 : Nat × Nat
  numVertices : Nat → Nat
  numEdges0 : Nat
  selectFormat : FormatCode → SparseFormat
  cscData : NDArray
  edgePermutation : SparseFormat → NDArray

/-- Error taxonomy of the validation and dispatch layer.  In the C++ source
every branch ends in a fatal `CHECK`/`LOG(FATAL)`; the spec requires the error
kinds to be distinct and inspectable, which the embedding makes explicit. -/
inductive KernelError where
  | ContextMismatch (name : String)
  | NotContiguous (name : String)
  | ShapeMismatch (name : String)
  | EdgeTypeCheckFailed
  | BroadcastIncompatible
  | UnsupportedFormat (msg : String)
  | UnsupportedDispatch (msg : String)
deriving DecidableEq, Repr

/-- Check whether the given arguments have the same context (`CheckCtx`):
null arrays are skipped, the first non-null array whose context differs from
the reference context aborts the call. -/
def CheckCtx (ctx : DLContext) : List (NDArray × String) → Except KernelError Unit
  | [] => Except.ok ()
  | (a, name) :: rest =>
    if IsNullArray a then CheckCtx ctx rest
    else if a.ctx = ctx then CheckCtx ctx rest
    else Except.error (KernelError.ContextMismatch name)

/-- Check whether input tensors are contiguous (`CheckContiguous`):
null arrays are skipped, the first non-null non-contiguous array aborts. -/
def CheckContiguous : List (NDArray × String) → Except KernelError Unit
  | [] => Except.ok ()
  | (a, name) :: rest =>
    if IsNullArray a then CheckContiguous rest
    else if a.IsContiguous then CheckContiguous rest
    else Except.error (KernelError.NotContiguous name)

/-- Check whether input tensors have valid shape (`CheckShape`): each non-null
array must have at least 2 dimensions and its leading dimension must equal
`gdim[uev_idx[i]]`, the structural count selected for its role. -/
def CheckShape (gdim : List Nat) : List (Nat × NDArray × String) → Except KernelError Unit
  | [] => Except.ok ()
  | (idx, a, name) :: rest =>
    if IsNullArray a then CheckShape gdim rest
    else if a.shape.length < 2 then Except.error (KernelError.ShapeMismatch name)
    else if a.shape.headD 0 = gdim.getD idx 0 then CheckShape gdim rest
    else Except.error (KernelError.ShapeMismatch name)

/-- Backend axis of the dispatch key. -/
inductive Backend where
  | host
  | accelerator
deriving DecidableEq, Repr

/-- Float-precision axis of the dispatch key (16-bit, reduced-range 16-bit,
32-bit and 64-bit variants). -/
inductive FloatPrec where
  | f16
  | bf16
  | f32
  | f64
deriving DecidableEq, Repr

/-- Resolved dispatch key: backend, index-integer width, float precision. -/
structure DispatchKey where
  backend : Backend
  idWidth : Nat
  prec : FloatPrec
deriving DecidableEq, Repr

/-- Modelled from the spec: the `ATEN_XPU_SWITCH_CUDA` dispatch macro
(declared outside the snapshot).  It resolves the backend axis from a device
type code: host CPU (1) and CUDA accelerator (2) are supported, anything else
fails fatally as an unsupported dispatch. -/
def resolveXPU (deviceType : Nat) (opName : String) : Except KernelError Backend :=
  if deviceType = 1 then Except.ok Backend.host
  else if deviceType = 2 then Except.ok Backend.accelerator
  else Except.error (KernelError.UnsupportedDispatch opName)

/-- Modelled from the spec: the `ATEN_ID_TYPE_SWITCH` dispatch macro (declared
outside the snapshot).  It resolves the index-integer width axis: 32-bit and
64-bit signed integer dtypes are supported, anything else fails fatally. -/
def resolveIdType (d : DLDataType) : Except KernelError Nat :=
  if d.code = 0 ∧ d.bits = 32 then Except.ok 32
  else if d.code = 0 ∧ d.bits = 64 then Except.ok 64
  else Except.error (KernelError.UnsupportedDispatch ("id type"))

/-- Modelled from the spec: the `ATEN_FLOAT_BITS_SWITCH` dispatch macro
(declared outside the snapshot).  It resolves the float-precision axis from
the closed enumeration of 16-bit float, 16-bit reduced-range bfloat, 32-bit
and 64-bit float; anything else fails fatally. -/
def resolveFloatBits (d : DLDataType) : Except KernelError FloatPrec :=
  if d.code = 2 ∧ d.bits = 16 then Except.ok FloatPrec.f16
  else if d.code = 4 ∧ d.bits = 16 then Except.ok FloatPrec.bf16
  else if d.code = 2 ∧ d.bits = 32 then Except.ok FloatPrec.f32
  else if d.code = 2 ∧ d.bits = 64 then Except.ok FloatPrec.f64
  else Except.error (KernelError.UnsupportedDispatch ("Feature data"))

/-- Modelled from the spec: trailing-aligned broadcast of two reversed
feature-dimension lists; a size of 1 on either side is stretched, unequal
non-1 sizes are incompatible. -/
def bcastFeat : List Nat → List Nat → Option (List Nat)
  | [], ys => some ys
  | x :: xs, [] => some (x :: xs)
  | x :: xs, y :: ys =>
    if x = y ∨ x = 1 ∨ y = 1 then (bcastFeat xs ys).map (fun r => max x y :: r)
    else none

/-- Modelled from the spec: `CalcBcastOff` (defined in `src/array/bcast.cc`,
which is not part of the snapshot).  It computes the broadcast descriptor over
the feature-dimension suffixes (the leading structural dimension excluded) of
the two operands; a copy operator or a null operand degenerates to the other
operand's feature shape; incompatible suffixes are a hard error. -/
def CalcBcastOff (op : String) (lhs rhs : NDArray) : Except KernelError (List Nat) :=
  if op = "copy_lhs" ∨ IsNullArray rhs then Except.ok (lhs.shape.drop 1)
  else if op = "copy_rhs" ∨ IsNullArray lhs then Except.ok (rhs.shape.drop 1)
  else
    match bcastFeat (lhs.shape.drop 1).reverse (rhs.shape.drop 1).reverse with
    | some r => Except.ok r.reverse
    | none => Except.error KernelError.BroadcastIncompatible

/-- One fully resolved kernel instantiation, recording which templated kernel
the dispatch layer invoked and with which arguments. -/
inductive KernelInvocation where
  | spmmCsc (key : DispatchKey) (op reduce : String)
      (ufeat efeat out : NDArray) (out_aux : List NDArray)
  | spmmCoo (key : DispatchKey) (op reduce : String)
      (ufeat efeat out : NDArray) (out_aux : List NDArray)
  | sddmmCsr (key : DispatchKey) (op : String)
      (lhs rhs out : NDArray) (lhs_target rhs_target : Nat)
  | sddmmCoo (key : DispatchKey) (op : String)
      (lhs rhs out : NDArray) (lhs_target rhs_target : Nat)
  | segmentReduce (key : DispatchKey) (op : String)
      (feat offsets out arg : NDArray)
  | bwdSegmentCmp (key : DispatchKey) (feat arg out : NDArray)
deriving DecidableEq, Repr

/-- Generalized sparse matrix-matrix multiplication dispatch (`SpMM` in the
source): select the format preferring CSC, compute the broadcast descriptor,
resolve the three dispatch axes, then invoke the CSC or COO kernel; any other
selected format is a fatal unsupported-format error. -/
def SpMM (op reduce : String) (g : HeteroGraph) (ufeat efeat out : NDArray)
    (out_aux : List NDArray) : Except KernelError KernelInvocation := do
  let format := g.selectFormat csc_code
  let _bcast ← CalcBcastOff op ufeat efeat
  let xpu ← resolveXPU g.ctx.device_type ("SpMM")
  let idWidth ← resolveIdType g.dataType
  let prec ← resolveFloatBits out.dtype
  if format = SparseFormat.kCSC then
    Except.ok (KernelInvocation.spmmCsc ⟨xpu, idWidth, prec⟩ op reduce ufeat efeat out out_aux)
  else if format = SparseFormat.kCOO then
    Except.ok (KernelInvocation.spmmCoo ⟨xpu, idWidth, prec⟩ op reduce ufeat efeat out out_aux)
  else
    Except.error (KernelError.UnsupportedFormat ("SpMM only supports CSC and COO foramts"))

/-- Generalized sampled dense-dense matrix multiplication dispatch (`SDDMM` in
the source): select the format preferring COO, compute the broadcast
descriptor, resolve the three dispatch axes, then invoke the CSR or COO
kernel; any other selected format is a fatal unsupported-format error. -/
def SDDMM (op : String) (g : HeteroGraph) (lhs rhs out : NDArray)
    (lhs_target rhs_target : Nat) : Except KernelError KernelInvocation := do
  let format := g.selectFormat coo_code
  let _bcast ← CalcBcastOff op lhs rhs
  let xpu ← resolveXPU g.ctx.device_type ("SDDMM")
  let idWidth ← resolveIdType g.dataType
  let prec ← resolveFloatBits out.dtype
  if format = SparseFormat.kCSR then
    Except.ok (KernelInvocation.sddmmCsr ⟨xpu, idWidth, prec⟩ op lhs rhs out lhs_target rhs_target)
  else if format = SparseFormat.kCOO then
    Except.ok (KernelInvocation.sddmmCoo ⟨xpu, idWidth, prec⟩ op lhs rhs out lhs_target rhs_target)
  else
    Except.error (KernelError.UnsupportedFormat ("SDDMM only supports CSR and COO foramts"))

/-- Edge-mapping query (`GetEdgeMapping` in the source): select the format
preferring CSC; if CSC is selected return the CSC matrix's `data` array,
otherwise return the null sentinel. -/
def GetEdgeMapping (g : HeteroGraph) : NDArray :=
  if g.selectFormat csc_code = SparseFormat.kCSC then g.cscData else NullArray

/-- Segment reduce dispatch function (`SegmentReduceDispatch` in the source):
backend from `feat`'s context, index width from `offsets`' dtype, float
precision from `feat`'s dtype. -/
def SegmentReduceDispatch (op : String) (feat offsets out arg : NDArray) :
    Except KernelError KernelInvocation := do
  let xpu ← resolveXPU feat.ctx.device_type ("SegmentReduce")
  let idWidth ← resolveIdType offsets.dtype
  let prec ← resolveFloatBits feat.dtype
  Except.ok (KernelInvocation.segmentReduce ⟨xpu, idWidth, prec⟩ op feat offsets out arg)

/-- Backward segment cmp dispatch function (`BackwardSegmentCmpDispatch` in the
source): backend from `feat`'s context, index width from `arg`'s dtype, float
precision from `feat`'s dtype. -/
def BackwardSegmentCmpDispatch (feat arg out : NDArray) :
    Except KernelError KernelInvocation := do
  let xpu ← resolveXPU feat.ctx.device_type ("BackwardSegmentCmp")
  let idWidth ← resolveIdType arg.dtype
  let prec ← resolveFloatBits feat.dtype
  Except.ok (KernelInvocation.bwdSegmentCmp ⟨xpu, idWidth, prec⟩ feat arg out)

/-- The operand/name list the SpMM entry point passes to the context and
contiguity checkers. -/
def spmmTensors (U E V ArgU ArgE : NDArray) : List (NDArray × String) :=
  [(U, "U_data"), (E, "E_data"), (V, "out"), (ArgU, "Arg_U"), (ArgE, "Arg_E")]

/-- The structural-count vector `{NumVertices(src), NumEdges(0),
NumVertices(dst)}` both entry points pass to `CheckShape`. -/
def spmmGdim (g : HeteroGraph) : List Nat :=
  [g.numVertices g.findEdge0.1, g.numEdges0, g.numVertices g.findEdge0.2]

/-- The `CHECK_EQ(graph->NumEdgeTypes(), 1)` single-edge-type guard. -/
def checkSingleEdgeType (g : HeteroGraph) : Except KernelError Unit :=
  if g.numEdgeTypes = 1 then Except.ok () else Except.error KernelError.EdgeTypeCheckFailed

/-- Validation prefix of `_CAPI_DGLKernelSpMM`: context check, contiguity
check, single-edge-type check, then the role-mapped shape check with
`uev_idx = {0, 1, 2, 2, 2}`. -/
def capiSpMMChecks (g : HeteroGraph) (U E V ArgU ArgE : NDArray) :
    Except KernelError Unit := do
  CheckCtx g.ctx (spmmTensors U E V ArgU ArgE)
  CheckContiguous (spmmTensors U E V ArgU ArgE)
  checkSingleEdgeType g
  CheckShape (spmmGdim g)
    [(0, U, "U_data"), (1, E, "E_data"), (2, V, "out"), (2, ArgU, "Arg_U"), (2, ArgE, "Arg_E")]

/-- The `_CAPI_DGLKernelSpMM` entry point: run all checks, then dispatch. -/
def capiSpMM (g : HeteroGraph) (op reduce_op : String) (U E V ArgU ArgE : NDArray) :
    Except KernelError KernelInvocation := do
  capiSpMMChecks g U E V ArgU ArgE
  SpMM op reduce_op g U E V [ArgU, ArgE]

/-- The operand/name list the SDDMM entry point passes to the context and
contiguity checkers. -/
def sddmmTensors (lhs rhs out : NDArray) : List (NDArray × String) :=
  [(lhs, "lhs"), (rhs, "rhs"), (out, "out")]

/-- Validation prefix of `_CAPI_DGLKernelSDDMM`: context check, contiguity
check, single-edge-type check, then the shape check with
`uev_idx = {lhs_target, rhs_target, 1}`. -/
def capiSDDMMChecks (g : HeteroGraph) (lhs rhs out : NDArray)
    (lhs_target rhs_target : Nat) : Except KernelError Unit := do
  CheckCtx g.ctx (sddmmTensors lhs rhs out)
  CheckContiguous (sddmmTensors lhs rhs out)
  checkSingleEdgeType g
  CheckShape (spmmGdim g)
    [(lhs_target, lhs, "U_data"), (rhs_target, rhs, "E_data"), (1, out, "V_data")]

/-- The `_CAPI_DGLKernelSDDMM` entry point: run all checks, then dispatch. -/
def capiSDDMM (g : HeteroGraph) (op : String) (lhs rhs out : NDArray)
    (lhs_target rhs_target : Nat) : Except KernelError KernelInvocation := do
  capiSDDMMChecks g lhs rhs out lhs_target rhs_target
  SDDMM op g lhs rhs out lhs_target rhs_target

/-- Validation prefix of `_CAPI_DGLKernelSegmentReduce`: context and
contiguity checks on `feat`, `offsets` and `out` only (the `arg` operand is
not included in either list in the source). -/
def capiSegmentReduceChecks (feat offsets out : NDArray) : Except KernelError Unit := do
  CheckCtx feat.ctx [(feat, "feat"), (offsets, "offsets"), (out, "out")]
  CheckContiguous [(feat, "feat"), (offsets, "offsets"), (out, "out")]

/-- The `_CAPI_DGLKernelSegmentReduce` entry point: run the checks, then
dispatch. -/
def capiSegmentReduce (op : String) (feat offsets out arg : NDArray) :
    Except KernelError KernelInvocation := do
  capiSegmentReduceChecks feat offsets out
  SegmentReduceDispatch op feat offsets out arg

/-- Validation prefix of `_CAPI_DGLKernelBwdSegmentCmp`: context and
contiguity checks on `feat`, `arg` and `out`. -/
def capiBwdSegmentCmpChecks (feat arg out : NDArray) : Except KernelError Unit := do
  CheckCtx feat.ctx [(feat, "feat"), (arg, "arg"), (out, "out")]
  CheckContiguous [(feat, "feat"), (arg, "arg"), (out, "out")]

/-- The `_CAPI_DGLKernelBwdSegmentCmp` entry point: run the checks, then
dispatch. -/
def capiBwdSegmentCmp (feat arg out : NDArray) : Except KernelError KernelInvocation := do
  capiBwdSegmentCmpChecks feat arg out
  BackwardSegmentCmpDispatch feat arg out

/-- State-passing wrapper for an entry point: caller-owned buffers (modelled
by an abstract state) are mutated only by the kernel, which runs only when
the entry point returns a resolved invocation. -/
def runEntry {σ : Type} (res : Except KernelError KernelInvocation)
    (kern : KernelInvocation → σ → σ) (s : σ) : σ × Except KernelError KernelInvocation :=
  match res with
  | Except.error e => (s, Except.error e)
  | Except.ok k => (kern k s, Except.ok k)

/-- Whether a validation or dispatch computation succeeded. -/
def isOkE {α : Type} : Except KernelError α → Bool
  | Except.ok _ => true
  | Except.error _ => false

/-- Whether a validation or dispatch computation aborted with an error. -/
def isErrE {α : Type} (r : Except KernelError α) : Bool := !(isOkE r)

/-- Role condition enforced by `CheckShape` for one operand: a non-null
tensor must have at least two dimensions and lead with the structural count
`c` mapped to its role. -/
def shapeOk (c : Nat) (a : NDArray) : Prop :=
  IsNullArray a = false → 2 ≤ a.shape.length ∧ a.shape.headD 0 = c

/-- Concrete host context used by the witnesses. -/
def cpuCtx : DLContext := ⟨1, 0⟩

/-- Concrete accelerator context used by the witnesses. -/
def gpuCtx : DLContext := ⟨2, 0⟩

/-- 64-bit signed integer dtype. -/
def dtInt64 : DLDataType := ⟨0, 64, 1⟩

/-- 32-bit float dtype. -/
def dtFloat32 : DLDataType := ⟨2, 32, 1⟩

/-- 64-bit float dtype. -/
def dtFloat64 : DLDataType := ⟨2, 64, 1⟩

/-- Concrete contiguous host tensor of the given shape and dtype. -/
def mkArr (shape : List Nat) (dt : DLDataType) : NDArray :=
  { isNull := false, ctx := cpuCtx, dtype := dt, shape := shape, contiguous := true }

/-- Concrete well-formed graph used by the witnesses: host context, 64-bit
index dtype, one edge type from vertex type 0 (3 vertices) to vertex type 1
(4 vertices), 5 edges; the format selector answers the COO request with COO
and every other request with CSC; the CSC data array (the canonical-order to
CSC-order edge permutation) is null, and no format needs an edge mapping. -/
def gEx : HeteroGraph :=
  { ctx := cpuCtx
    dataType := dtInt64
    numEdgeTypes := 1
    findEdge0 := (0, 1)
    numVertices := fun v => if v = 0 then 3 else 4
    numEdges0 := 5
    selectFormat := fun c => if c = coo_code then SparseFormat.kCOO else SparseFormat.kCSC
    cscData := NullArray
    edgePermutation := fun _ => NullArray }

/-- Variant of `gEx` whose format selector always answers CSR, which the SpMM
engine does not support. -/
def gBadFmt : HeteroGraph := { gEx with selectFormat := fun _ => SparseFormat.kCSR }

/-- Variant of `gEx` whose format selector always answers CSC, which the
SDDMM engine does not support. -/
def gCscOnly : HeteroGraph := { gEx with selectFormat := fun _ => SparseFormat.kCSC }

/-- Variant of `gEx` living on an unsupported device type. -/
def gBadDev : HeteroGraph := { gEx with ctx := ⟨7, 0⟩ }

/-- Variant of `gEx` carrying two edge types. -/
def gMulti : HeteroGraph := { gEx with numEdgeTypes := 2 }

/-- Concrete source-feature tensor matching `gEx` (3 source vertices). -/
def uEx : NDArray := mkArr [3, 2] dtFloat32

/-- Concrete edge-feature tensor matching `gEx` (5 edges). -/
def eEx : NDArray := mkArr [5, 2] dtFloat32

/-- Concrete output tensor matching `gEx` (4 destination vertices). -/
def vEx : NDArray := mkArr [4, 2] dtFloat32

/-- Source-feature tensor placed on the accelerator while the graph is on the
host (context mismatch). -/
def uGpu : NDArray :=
  { isNull := false, ctx := gpuCtx, dtype := dtFloat32, shape := [3, 2], contiguous := true }

/-- Concrete segment-reduce feature tensor (32-bit float). -/
def featSR : NDArray := mkArr [4, 2] dtFloat32

/-- Concrete segment-offsets tensor (64-bit int). -/
def offSR : NDArray := mkArr [3, 1] dtInt64

/-- Segment-reduce output tensor whose dtype (64-bit float) differs from the
feature tensor's (32-bit float). -/
def outSR64 : NDArray := mkArr [2, 2] dtFloat64

/-- Segment-reduce output tensor of matching 32-bit float dtype. -/
def outSR32 : NDArray := mkArr [2, 2] dtFloat32

/-- Non-null, non-contiguous auxiliary argmax tensor. -/
def argNC : NDArray :=
  { isNull := false, ctx := cpuCtx, dtype := dtInt64, shape := [4, 2], contiguous := false }

/-- Non-contiguous variant of the source-feature tensor `uEx`. -/
def uNC : NDArray :=
  { isNull := false, ctx := cpuCtx, dtype := dtFloat32, shape := [3, 2], contiguous := false }

/-- Auxiliary tensor with a float dtype, which the index-type dispatch axis
does not support. -/
def argWrongDtype : NDArray := mkArr [2, 2] dtFloat32

/-- Backward-segment-cmp output tensor. -/
def outBwd : NDArray := mkArr [4, 2] dtFloat32

/-- One-dimensional feature tensor (would fail any ndim-2 shape check). -/
def feat1d : NDArray := mkArr [5] dtFloat32

/-- One-dimensional index tensor. -/
def arg1d : NDArray := mkArr [5] dtInt64

/-- One-dimensional output tensor. -/
def out1d : NDArray := mkArr [9] dtFloat32

/-- Binding a successful step runs the continuation. -/
@[simp] theorem ebind_ok {α β : Type} (a : α) (f : α → Except KernelError β) :
    (Except.ok a >>= f) = f a := rfl

/-- Binding a failed step propagates the error unchanged. -/
@[simp] theorem ebind_err {α β : Type} (e : KernelError) (f : α → Except KernelError β) :
    ((Except.error e : Except KernelError α) >>= f) = Except.error e := rfl

/-- A run of `CheckShape` succeeds exactly when every non-null listed tensor
has at least two dimensions and its leading dimension equals the structural
count selected by its role index. -/
theorem checkShape_ok_iff (gdim : List Nat) (l : List (Nat × NDArray × String)) :
    CheckShape gdim l = Except.ok () ↔
      ∀ x ∈ l, IsNullArray x.2.1 = false →
        2 ≤ x.2.1.shape.length ∧ x.2.1.shape.headD 0 = gdim.getD x.1 0 := by
  induction l with
  | nil => simp [CheckShape]
  | cons hd tl ih =>
    obtain ⟨idx, a, name⟩ := hd
    cases hnull : IsNullArray a with
    | true => simp [CheckShape, hnull, ih]
    | false =>
      have h1 : ¬(IsNullArray a = true) := by simp [hnull]
      by_cases hlen : a.shape.length < 2
      · simp only [CheckShape]
        rw [if_neg h1, if_pos hlen]
        simp only [List.forall_mem_cons]
        constructor
        · intro h; cases h
        · intro h
          have := (h.1 hnull).1
          omega
      · by_cases hhead : a.shape.headD 0 = gdim.getD idx 0
        · simp only [CheckShape]
          rw [if_neg h1, if_neg hlen, if_pos hhead, ih]
          simp only [List.forall_mem_cons]
          constructor
          · intro h
            exact ⟨fun _ => ⟨by omega, hhead⟩, h⟩
          · intro h
            exact h.2
        · simp only [CheckShape]
          rw [if_neg h1, if_neg hlen, if_neg hhead]
          simp only [List.forall_mem_cons]
          constructor
          · intro h; cases h
          · intro h
            exact absurd ((h.1 hnull).2) hhead

/-- A run of `CheckShape` either succeeds or aborts with a shape-mismatch
error naming some operand. -/
theorem checkShape_ok_or_shapeErr (gdim : List Nat) (l : List (Nat × NDArray × String)) :
    CheckShape gdim l = Except.ok () ∨
      ∃ n, CheckShape gdim l = Except.error (KernelError.ShapeMismatch n) := by
  induction l with
  | nil => left; rfl
  | cons hd tl ih =>
    obtain ⟨idx, a, name⟩ := hd
    cases hnull : IsNullArray a with
    | true =>
      have heq : CheckShape gdim ((idx, a, name) :: tl) = CheckShape gdim tl := by
        simp only [CheckShape]
        rw [if_pos hnull]
      rw [heq]
      exact ih
    | false =>
      have h1 : ¬(IsNullArray a = true) := by simp [hnull]
      by_cases hlen : a.shape.length < 2
      · right
        refine ⟨name, ?_⟩
        simp only [CheckShape]
        rw [if_neg h1, if_pos hlen]
      · by_cases hhead : a.shape.headD 0 = gdim.getD idx 0
        · have heq : CheckShape gdim ((idx, a, name) :: tl) = CheckShape gdim tl := by
            simp only [CheckShape]
            rw [if_neg h1, if_neg hlen, if_pos hhead]
          rw [heq]
          exact ih
        · right
          refine ⟨name, ?_⟩
          simp only [CheckShape]
          rw [if_neg h1, if_neg hlen, if_neg hhead]

/-- If some listed tensor is non-null and not contiguous, `CheckContiguous`
aborts with a not-contiguous error naming some operand. -/
theorem checkContiguous_mem_err {l : List (NDArray × String)} {a : NDArray} {n : String}
    (hmem : (a, n) ∈ l) (hnull : IsNullArray a = false) (hcont : a.IsContiguous = false) :
    ∃ name, CheckContiguous l = Except.error (KernelError.NotContiguous name) := by
  induction l with
  | nil => cases hmem
  | cons hd tl ih =>
    obtain ⟨b, m⟩ := hd
    rcases List.mem_cons.mp hmem with heq | htl
    · injection heq with h1 h2
      subst h1
      subst h2
      exact ⟨n, by simp [CheckContiguous, hnull, hcont]⟩
    · cases hb : IsNullArray b with
      | true =>
        obtain ⟨nm, h⟩ := ih htl
        exact ⟨nm, by simp [CheckContiguous, hb, h]⟩
      | false =>
        cases hc : b.IsContiguous with
        | true =>
          obtain ⟨nm, h⟩ := ih htl
          exact ⟨nm, by simp [CheckContiguous, hb, hc, h]⟩
        | false => exact ⟨m, by simp [CheckContiguous, hb, hc]⟩

/-- Inversion of a successful SpMM dispatch: the three axes resolved from the
graph context, the graph index dtype and the output dtype, and the kernel is
the CSC or the COO instantiation according to the selected format. -/
theorem spmm_ok_inversion (op reduce : String) (g : HeteroGraph) (u e o : NDArray)
    (aux : List NDArray) (k : KernelInvocation)
    (hk : SpMM op reduce g u e o aux = Except.ok k) :
    ∃ b w p, resolveXPU g.ctx.device_type ("SpMM") = Except.ok b ∧
      resolveIdType g.dataType = Except.ok w ∧
      resolveFloatBits o.dtype = Except.ok p ∧
      ((g.selectFormat csc_code = SparseFormat.kCSC ∧
          k = KernelInvocation.spmmCsc ⟨b, w, p⟩ op reduce u e o aux) ∨
       (g.selectFormat csc_code = SparseFormat.kCOO ∧
          k = KernelInvocation.spmmCoo ⟨b, w, p⟩ op reduce u e o aux)) := by
  rw [SpMM] at hk
  cases hb : CalcBcastOff op u e with
  | error e1 => rw [hb] at hk; simp at hk
  | ok bc =>
    rw [hb, ebind_ok] at hk
    cases hx : resolveXPU g.ctx.device_type ("SpMM") with
    | error e1 => rw [hx] at hk; simp at hk
    | ok b =>
      rw [hx, ebind_ok] at hk
      cases hw : resolveIdType g.dataType with
      | error e1 => rw [hw] at hk; simp at hk
      | ok w =>
        rw [hw, ebind_ok] at hk
        cases hp : resolveFloatBits o.dtype with
        | error e1 => rw [hp] at hk; simp at hk
        | ok p =>
          rw [hp, ebind_ok] at hk
          refine ⟨b, w, p, rfl, rfl, rfl, ?_⟩
          by_cases hf : g.selectFormat csc_code = SparseFormat.kCSC
          · rw [if_pos hf] at hk
            exact Or.inl ⟨hf, (Except.ok.inj hk).symm⟩
          · rw [if_neg hf] at hk
            by_cases hf2 : g.selectFormat csc_code = SparseFormat.kCOO
            · rw [if_pos hf2] at hk
              exact Or.inr ⟨hf2, (Except.ok.inj hk).symm⟩
            · rw [if_neg hf2] at hk
              cases hk

/-- Inversion of a successful SDDMM dispatch: the three axes resolved from the
graph context, the graph index dtype and the output dtype, and the kernel is
the CSR or the COO instantiation according to the selected format. -/
theorem sddmm_ok_inversion (op : String) (g : HeteroGraph) (lhs rhs o : NDArray)
    (lt rt : Nat) (k : KernelInvocation)
    (hk : SDDMM op g lhs rhs o lt rt = Except.ok k) :
    ∃ b w p, resolveXPU g.ctx.device_type ("SDDMM") = Except.ok b ∧
      resolveIdType g.dataType = Except.ok w ∧
      resolveFloatBits o.dtype = Except.ok p ∧
      ((g.selectFormat coo_code = SparseFormat.kCSR ∧
          k = KernelInvocation.sddmmCsr ⟨b, w, p⟩ op lhs rhs o lt rt) ∨
       (g.selectFormat coo_code = SparseFormat.kCOO ∧
          k = KernelInvocation.sddmmCoo ⟨b, w, p⟩ op lhs rhs o lt rt)) := by
  rw [SDDMM] at hk
  cases hb : CalcBcastOff op lhs rhs with
  | error e1 => rw [hb] at hk; simp at hk
  | ok bc =>
    rw [hb, ebind_ok] at hk
    cases hx : resolveXPU g.ctx.device_type ("SDDMM") with
    | error e1 => rw [hx] at hk; simp at hk
    | ok b =>
      rw [hx, ebind_ok] at hk
      cases hw : resolveIdType g.dataType with
      | error e1 => rw [hw] at hk; simp at hk
      | ok w =>
        rw [hw, ebind_ok] at hk
        cases hp : resolveFloatBits o.dtype with
        | error e1 => rw [hp] at hk; simp at hk
        | ok p =>
          rw [hp, ebind_ok] at hk
          refine ⟨b, w, p, rfl, rfl, rfl, ?_⟩
          by_cases hf : g.selectFormat coo_code = SparseFormat.kCSR
          · rw [if_pos hf] at hk
            exact Or.inl ⟨hf, (Except.ok.inj hk).symm⟩
          · rw [if_neg hf] at hk
            by_cases hf2 : g.selectFormat coo_code = SparseFormat.kCOO
            · rw [if_pos hf2] at hk
              exact Or.inr ⟨hf2, (Except.ok.inj hk).symm⟩
            · rw [if_neg hf2] at hk
              cases hk

/-- Inversion of a successful segment-reduce dispatch: backend from the
feature tensor's context, index width from the offsets tensor's dtype, float
precision from the feature tensor's dtype. -/
theorem segred_ok_inversion (op : String) (feat offsets out arg : NDArray)
    (k : KernelInvocation)
    (hk : SegmentReduceDispatch op feat offsets out arg = Except.ok k) :
    ∃ b w p, resolveXPU feat.ctx.device_type ("SegmentReduce") = Except.ok b ∧
      resolveIdType offsets.dtype = Except.ok w ∧
      resolveFloatBits feat.dtype = Except.ok p ∧
      k = KernelInvocation.segmentReduce ⟨b, w, p⟩ op feat offsets out arg := by
  rw [SegmentReduceDispatch] at hk
  cases hx : resolveXPU feat.ctx.device_type ("SegmentReduce") with
  | error e1 => rw [hx] at hk; simp at hk
  | ok b =>
    rw [hx, ebind_ok] at hk
    cases hw : resolveIdType offsets.dtype with
    | error e1 => rw [hw] at hk; simp at hk
    | ok w =>
      rw [hw, ebind_ok] at hk
      cases hp : resolveFloatBits feat.dtype with
      | error e1 => rw [hp] at hk; simp at hk
      | ok p =>
        rw [hp, ebind_ok] at hk
        exact ⟨b, w, p, rfl, rfl, rfl, (Except.ok.inj hk).symm⟩

/-- Inversion of a successful backward-segment-cmp dispatch: backend from the
feature tensor's context, index width from the arg tensor's dtype, float
precision from the feature tensor's dtype. -/
theorem bwd_ok_inversion (feat arg out : NDArray) (k : KernelInvocation)
    (hk : BackwardSegmentCmpDispatch feat arg out = Except.ok k) :
    ∃ b w p, resolveXPU feat.ctx.device_type ("BackwardSegmentCmp") = Except.ok b ∧
      resolveIdType arg.dtype = Except.ok w ∧
      resolveFloatBits feat.dtype = Except.ok p ∧
      k = KernelInvocation.bwdSegmentCmp ⟨b, w, p⟩ feat arg out := by
  rw [BackwardSegmentCmpDispatch] at hk
  cases hx : resolveXPU feat.ctx.device_type ("BackwardSegmentCmp") with
  | error e1 => rw [hx] at hk; simp at hk
  | ok b =>
    rw [hx, ebind_ok] at hk
    cases hw : resolveIdType arg.dtype with
    | error e1 => rw [hw] at hk; simp at hk
    | ok w =>
      rw [hw, ebind_ok] at hk
      cases hp : resolveFloatBits feat.dtype with
      | error e1 => rw [hp] at hk; simp at hk
      | ok p =>
        rw [hp, ebind_ok] at hk
        exact ⟨b, w, p, rfl, rfl, rfl, (Except.ok.inj hk).symm⟩

/-- C1: for each of the four entry points (SpMM, SDDMM, SegmentReduce,
BackwardSegmentCmp), a failure of the validation prefix (context, contiguity,
edge-type and shape checks) is the entry point's result, so the call returns
before any kernel invocation is resolved; under the state-passing runner the
caller-owned output and auxiliary buffers are left completely unchanged. -/
theorem c1_validation_before_kernel {σ : Type} (kern : KernelInvocation → σ → σ) (s : σ)
    (g : HeteroGraph) (op reduce sop : String)
    (U E V ArgU ArgE lhs rhs out feat offsets sout sarg bfeat barg bout : NDArray)
    (lt rt : Nat) (e1 e2 e3 e4 : KernelError) :
    (capiSpMMChecks g U E V ArgU ArgE = Except.error e1 →
      capiSpMM g op reduce U E V ArgU ArgE = Except.error e1 ∧
      (runEntry (capiSpMM g op reduce U E V ArgU ArgE) kern s).1 = s) ∧
    (capiSDDMMChecks g lhs rhs out lt rt = Except.error e2 →
      capiSDDMM g op lhs rhs out lt rt = Except.error e2 ∧
      (runEntry (capiSDDMM g op lhs rhs out lt rt) kern s).1 = s) ∧
    (capiSegmentReduceChecks feat offsets sout = Except.error e3 →
      capiSegmentReduce sop feat offsets sout sarg = Except.error e3 ∧
      (runEntry (capiSegmentReduce sop feat offsets sout sarg) kern s).1 = s) ∧
    (capiBwdSegmentCmpChecks bfeat barg bout = Except.error e4 →
      capiBwdSegmentCmp bfeat barg bout = Except.error e4 ∧
      (runEntry (capiBwdSegmentCmp bfeat barg bout) kern s).1 = s) := by
  refine ⟨fun h => ?_, fun h => ?_, fun h => ?_, fun h => ?_⟩
  · have he : capiSpMM g op reduce U E V ArgU ArgE = Except.error e1 := by
      rw [capiSpMM, h, ebind_err]
    exact ⟨he, by rw [he]; rfl⟩
  · have he : capiSDDMM g op lhs rhs out lt rt = Except.error e2 := by
      rw [capiSDDMM, h, ebind_err]
    exact ⟨he, by rw [he]; rfl⟩
  · have he : capiSegmentReduce sop feat offsets sout sarg = Except.error e3 := by
      rw [capiSegmentReduce, h, ebind_err]
    exact ⟨he, by rw [he]; rfl⟩
  · have he : capiBwdSegmentCmp bfeat barg bout = Except.error e4 := by
      rw [capiBwdSegmentCmp, h, ebind_err]
    exact ⟨he, by rw [he]; rfl⟩

/-- Witness for C1: a SpMM call whose source-feature tensor lives on the
accelerator while the graph is on the host is rejected with a context
mismatch, and the runner's state (a counter the kernel would bump) stays 0. -/
theorem c1_validation_before_kernel_witness :
    capiSpMM gEx "add" "sum" uGpu eEx vEx NullArray NullArray
      = Except.error (KernelError.ContextMismatch ("U_data")) ∧
    (runEntry (capiSpMM gEx "add" "sum" uGpu eEx vEx NullArray NullArray)
      (fun _ n => n + 1) (0 : Nat)).1 = 0 :=
  (c1_validation_before_kernel (fun _ n => n + 1) (0 : Nat) gEx "add" "sum" "sum"
    uGpu eEx vEx NullArray NullArray NullArray NullArray NullArray NullArray NullArray
    NullArray NullArray NullArray NullArray NullArray 0 1
    (KernelError.ContextMismatch ("U_data")) (KernelError.ContextMismatch ("U_data"))
    (KernelError.ContextMismatch ("U_data")) (KernelError.ContextMismatch ("U_data"))).1
    (by rfl)

/-- C2: the SpMM entry point's shape check succeeds exactly when each non-null
operand has at least two dimensions and leads with its role's structural
count — U with the source-vertex count, E with the edge count, out, ArgU and
ArgE with the destination-vertex count; the SDDMM entry point's shape check
maps lhs and rhs to the count selected by their target index and out to the
edge count; and any failing shape check aborts with a shape-mismatch error. -/
theorem c2_shape_role_mapping (g : HeteroGraph) (U E V ArgU ArgE lhs rhs out : NDArray)
    (lt rt : Nat) :
    (CheckShape (spmmGdim g) [(0, U, "U_data"), (1, E, "E_data"), (2, V, "out"),
        (2, ArgU, "Arg_U"), (2, ArgE, "Arg_E")] = Except.ok () ↔
      (shapeOk (g.numVertices g.findEdge0.1) U ∧ shapeOk g.numEdges0 E ∧
       shapeOk (g.numVertices g.findEdge0.2) V ∧
       shapeOk (g.numVertices g.findEdge0.2) ArgU ∧
       shapeOk (g.numVertices g.findEdge0.2) ArgE)) ∧
    (lt ≤ 2 → rt ≤ 2 →
      (CheckShape (spmmGdim g) [(lt, lhs, "U_data"), (rt, rhs, "E_data"), (1, out, "V_data")]
          = Except.ok () ↔
        (shapeOk ((spmmGdim g).getD lt 0) lhs ∧ shapeOk ((spmmGdim g).getD rt 0) rhs ∧
         shapeOk g.numEdges0 out))) ∧
    (∀ gdim l, CheckShape gdim l = Except.ok () ∨
      ∃ n, CheckShape gdim l = Except.error (KernelError.ShapeMismatch n)) := by
  refine ⟨?_, fun _ _ => ?_, checkShape_ok_or_shapeErr⟩
  · rw [checkShape_ok_iff]
    simp [shapeOk, spmmGdim]
  · rw [checkShape_ok_iff]
    simp [shapeOk, spmmGdim]

/-- Witness for C2: on the concrete graph `gEx`, SpMM operands shaped
(3,2)/(5,2)/(4,2) with null aux tensors pass the shape check, and SDDMM
operands targeted at source (count 3) and destination (count 4) with a
per-edge output pass theirs. -/
theorem c2_shape_role_mapping_witness :
    (CheckShape (spmmGdim gEx) [(0, uEx, "U_data"), (1, eEx, "E_data"), (2, vEx, "out"),
        (2, NullArray, "Arg_U"), (2, NullArray, "Arg_E")] = Except.ok ()) ∧
    (CheckShape (spmmGdim gEx) [(0, uEx, "U_data"), (2, vEx, "E_data"), (1, eEx, "V_data")]
        = Except.ok ()) := by
  constructor
  · exact (c2_shape_role_mapping gEx uEx eEx vEx NullArray NullArray uEx vEx eEx 0 2).1.mpr
      (by refine ⟨?_, ?_, ?_, ?_, ?_⟩ <;> simp [shapeOk] <;> decide)
  · exact ((c2_shape_role_mapping gEx uEx eEx vEx NullArray NullArray uEx vEx eEx 0 2).2.1
      (by decide) (by decide)).mpr
      (by refine ⟨?_, ?_, ?_⟩ <;> simp [shapeOk] <;> decide)

/-- C3: SpMM resolves a kernel only when the format selected for its CSC
request is CSC or COO, SDDMM only when the format selected for its COO
request is CSR or COO; any other selected format makes the dispatch return a
fatal error, so no kernel invocation is produced. -/
theorem c3_format_gating (op reduce : String) (g : HeteroGraph) (u e o : NDArray)
    (aux : List NDArray) (lhs rhs so : NDArray) (lt rt : Nat) :
    (isOkE (SpMM op reduce g u e o aux) = true →
      g.selectFormat csc_code = SparseFormat.kCSC ∨
      g.selectFormat csc_code = SparseFormat.kCOO) ∧
    (g.selectFormat csc_code ≠ SparseFormat.kCSC →
     g.selectFormat csc_code ≠ SparseFormat.kCOO →
      ∃ err, SpMM op reduce g u e o aux = Except.error err) ∧
    (isOkE (SDDMM op g lhs rhs so lt rt) = true →
      g.selectFormat coo_code = SparseFormat.kCSR ∨
      g.selectFormat coo_code = SparseFormat.kCOO) ∧
    (g.selectFormat coo_code ≠ SparseFormat.kCSR →
     g.selectFormat coo_code ≠ SparseFormat.kCOO →
      ∃ err, SDDMM op g lhs rhs so lt rt = Except.error err) := by
  refine ⟨?_, ?_, ?_, ?_⟩
  · intro hok
    cases hr : SpMM op reduce g u e o aux with
    | error e1 => rw [hr] at hok; cases hok
    | ok k =>
      obtain ⟨b, w, p, _, _, _, hor⟩ := spmm_ok_inversion op reduce g u e o aux k hr
      rcases hor with ⟨hf, _⟩ | ⟨hf, _⟩
      · exact Or.inl hf
      · exact Or.inr hf
  · intro h1 h2
    cases hr : SpMM op reduce g u e o aux with
    | error e1 => exact ⟨e1, rfl⟩
    | ok k =>
      obtain ⟨b, w, p, _, _, _, hor⟩ := spmm_ok_inversion op reduce g u e o aux k hr
      rcases hor with ⟨hf, _⟩ | ⟨hf, _⟩
      · exact absurd hf h1
      · exact absurd hf h2
  · intro hok
    cases hr : SDDMM op g lhs rhs so lt rt with
    | error e1 => rw [hr] at hok; cases hok
    | ok k =>
      obtain ⟨b, w, p, _, _, _, hor⟩ := sddmm_ok_inversion op g lhs rhs so lt rt k hr
      rcases hor with ⟨hf, _⟩ | ⟨hf, _⟩
      · exact Or.inl hf
      · exact Or.inr hf
  · intro h1 h2
    cases hr : SDDMM op g lhs rhs so lt rt with
    | error e1 => exact ⟨e1, rfl⟩
    | ok k =>
      obtain ⟨b, w, p, _, _, _, hor⟩ := sddmm_ok_inversion op g lhs rhs so lt rt k hr
      rcases hor with ⟨hf, _⟩ | ⟨hf, _⟩
      · exact absurd hf h1
      · exact absurd hf h2

/-- Witness for C3: a successful SpMM dispatch on `gEx` certifies that the
selected format is CSC or COO, and on the CSR-only graph `gBadFmt` both SpMM
and SDDMM abort with an error. -/
theorem c3_format_gating_witness :
    (gEx.selectFormat csc_code = SparseFormat.kCSC ∨
     gEx.selectFormat csc_code = SparseFormat.kCOO) ∧
    (∃ err, SpMM "add" "sum" gBadFmt uEx eEx vEx [] = Except.error err) ∧
    (∃ err, SDDMM "add" gCscOnly uEx vEx eEx 0 2 = Except.error err) := by
  have h := c3_format_gating "add" "sum" gEx uEx eEx vEx [] uEx vEx eEx 0 2
  have hb := c3_format_gating "add" "sum" gBadFmt uEx eEx vEx [] uEx vEx eEx 0 2
  have hc := c3_format_gating "add" "sum" gCscOnly uEx eEx vEx [] uEx vEx eEx 0 2
  exact ⟨h.1 (by rfl), hb.2.1 (by decide) (by decide), hc.2.2.2 (by decide) (by decide)⟩

/-- Counterexample to C4: a SegmentReduce call dispatches with float
precision f32 taken from the feature tensor's dtype even though the output
tensor's dtype is 64-bit float, so the float-precision axis is not derived
from the output tensor's dtype for every dispatched call (and this call has
no graph whose index dtype could drive the index-width axis). -/
theorem c4_dispatch_axes_counterexample :
    capiSegmentReduce "sum" featSR offSR outSR64 NullArray
      = Except.ok (KernelInvocation.segmentReduce ⟨Backend.host, 64, FloatPrec.f32⟩
          "sum" featSR offSR outSR64 NullArray) ∧
    resolveFloatBits outSR64.dtype = Except.ok FloatPrec.f64 ∧
    FloatPrec.f32 ≠ FloatPrec.f64 :=
  ⟨rfl, rfl, by decide⟩

/-- C4 amended: SpMM and SDDMM resolve the backend from the graph's device
context, the index width from the graph's index dtype and the float precision
from the output tensor's dtype, while SegmentReduce resolves the backend from
the feature tensor's context, the index width from the offsets tensor's dtype
and the float precision from the feature tensor's dtype; in all cases a
resolver failing on any axis aborts the dispatch, and the float-precision
axis accepts exactly the closed enumeration of 16-, 32- and 64-bit floats
plus the reduced-range 16-bit bfloat. -/
theorem c4_dispatch_axes_amended (op reduce : String) (g : HeteroGraph)
    (u e o : NDArray) (aux : List NDArray) (feat offsets sout sarg : NDArray)
    (lhs rhs so : NDArray) (lt rt : Nat) :
    (∀ k, SpMM op reduce g u e o aux = Except.ok k → ∃ b w p,
      resolveXPU g.ctx.device_type ("SpMM") = Except.ok b ∧
      resolveIdType g.dataType = Except.ok w ∧
      resolveFloatBits o.dtype = Except.ok p ∧
      (k = KernelInvocation.spmmCsc ⟨b, w, p⟩ op reduce u e o aux ∨
       k = KernelInvocation.spmmCoo ⟨b, w, p⟩ op reduce u e o aux)) ∧
    ((isErrE (resolveXPU g.ctx.device_type ("SpMM")) = true ∨
      isErrE (resolveIdType g.dataType) = true ∨
      isErrE (resolveFloatBits o.dtype) = true) →
      isErrE (SpMM op reduce g u e o aux) = true) ∧
    (∀ k, SDDMM op g lhs rhs so lt rt = Except.ok k → ∃ b w p,
      resolveXPU g.ctx.device_type ("SDDMM") = Except.ok b ∧
      resolveIdType g.dataType = Except.ok w ∧
      resolveFloatBits so.dtype = Except.ok p ∧
      (k = KernelInvocation.sddmmCsr ⟨b, w, p⟩ op lhs rhs so lt rt ∨
       k = KernelInvocation.sddmmCoo ⟨b, w, p⟩ op lhs rhs so lt rt)) ∧
    ((isErrE (resolveXPU g.ctx.device_type ("SDDMM")) = true ∨
      isErrE (resolveIdType g.dataType) = true ∨
      isErrE (resolveFloatBits so.dtype) = true) →
      isErrE (SDDMM op g lhs rhs so lt rt) = true) ∧
    (∀ k, SegmentReduceDispatch op feat offsets sout sarg = Except.ok k → ∃ b w p,
      resolveXPU feat.ctx.device_type ("SegmentReduce") = Except.ok b ∧
      resolveIdType offsets.dtype = Except.ok w ∧
      resolveFloatBits feat.dtype = Except.ok p ∧
      k = KernelInvocation.segmentReduce ⟨b, w, p⟩ op feat offsets sout sarg) ∧
    ((isErrE (resolveXPU feat.ctx.device_type ("SegmentReduce")) = true ∨
      isErrE (resolveIdType offsets.dtype) = true ∨
      isErrE (resolveFloatBits feat.dtype) = true) →
      isErrE (SegmentReduceDispatch op feat offsets sout sarg) = true) ∧
    (∀ d p, resolveFloatBits d = Except.ok p →
      (d.code = 2 ∧ (d.bits = 16 ∨ d.bits = 32 ∨ d.bits = 64)) ∨
      (d.code = 4 ∧ d.bits = 16)) := by
  refine ⟨?_, ?_, ?_, ?_, ?_, ?_, ?_⟩
  · intro k hk
    obtain ⟨b, w, p, hx, hw, hp, hor⟩ := spmm_ok_inversion op reduce g u e o aux k hk
    exact ⟨b, w, p, hx, hw, hp, hor.imp (fun h => h.2) (fun h => h.2)⟩
  · intro h
    cases hr : SpMM op reduce g u e o aux with
    | error e1 => rfl
    | ok k =>
      obtain ⟨b, w, p, hx, hw, hp, _⟩ := spmm_ok_inversion op reduce g u e o aux k hr
      rcases h with h1 | h1 | h1
      · rw [hx] at h1; cases h1
      · rw [hw] at h1; cases h1
      · rw [hp] at h1; cases h1
  · intro k hk
    obtain ⟨b, w, p, hx, hw, hp, hor⟩ := sddmm_ok_inversion op g lhs rhs so lt rt k hk
    exact ⟨b, w, p, hx, hw, hp, hor.imp (fun h => h.2) (fun h => h.2)⟩
  · intro h
    cases hr : SDDMM op g lhs rhs so lt rt with
    | error e1 => rfl
    | ok k =>
      obtain ⟨b, w, p, hx, hw, hp, _⟩ := sddmm_ok_inversion op g lhs rhs so lt rt k hr
      rcases h with h1 | h1 | h1
      · rw [hx] at h1; cases h1
      · rw [hw] at h1; cases h1
      · rw [hp] at h1; cases h1
  · intro k hk
    exact segred_ok_inversion op feat offsets sout sarg k hk
  · intro h
    cases hr : SegmentReduceDispatch op feat offsets sout sarg with
    | error e1 => rfl
    | ok k =>
      obtain ⟨b, w, p, hx, hw, hp, _⟩ := segred_ok_inversion op feat offsets sout sarg k hr
      rcases h with h1 | h1 | h1
      · rw [hx] at h1; cases h1
      · rw [hw] at h1; cases h1
      · rw [hp] at h1; cases h1
  · intro d p h
    rw [resolveFloatBits] at h
    split_ifs at h with h1 h2 h3 h4
    · exact Or.inl ⟨h1.1, Or.inl h1.2⟩
    · exact Or.inr h2
    · exact Or.inl ⟨h3.1, Or.inr (Or.inl h3.2)⟩
    · exact Or.inl ⟨h4.1, Or.inr (Or.inr h4.2)⟩

/-- Witness for the amended C4: the unsupported device type 7 makes SpMM's
dispatch abort; a concrete successful SDDMM dispatch exposes its axes
resolved from the graph context, graph index dtype and output dtype; and a
concrete successful SegmentReduce dispatch exposes its axes resolved from the
feature context, offsets dtype and feature dtype. -/
theorem c4_dispatch_axes_amended_witness :
    isErrE (SpMM "add" "sum" gBadDev uEx eEx vEx []) = true ∧
    (∃ b w p, resolveXPU gEx.ctx.device_type ("SDDMM") = Except.ok b ∧
      resolveIdType gEx.dataType = Except.ok w ∧
      resolveFloatBits eEx.dtype = Except.ok p ∧
      (KernelInvocation.sddmmCoo ⟨Backend.host, 64, FloatPrec.f32⟩ "add" uEx vEx eEx 0 2
          = KernelInvocation.sddmmCsr ⟨b, w, p⟩ "add" uEx vEx eEx 0 2 ∨
       KernelInvocation.sddmmCoo ⟨Backend.host, 64, FloatPrec.f32⟩ "add" uEx vEx eEx 0 2
          = KernelInvocation.sddmmCoo ⟨b, w, p⟩ "add" uEx vEx eEx 0 2)) ∧
    (∃ b w p, resolveXPU featSR.ctx.device_type ("SegmentReduce") = Except.ok b ∧
      resolveIdType offSR.dtype = Except.ok w ∧
      resolveFloatBits featSR.dtype = Except.ok p ∧
      KernelInvocation.segmentReduce ⟨Backend.host, 64, FloatPrec.f32⟩
          "sum" featSR offSR outSR64 NullArray
        = KernelInvocation.segmentReduce ⟨b, w, p⟩ "sum" featSR offSR outSR64 NullArray) := by
  have h := c4_dispatch_axes_amended "add" "sum" gBadDev uEx eEx vEx [] featSR offSR
    outSR64 NullArray uEx vEx eEx 0 2
  have h2 := c4_dispatch_axes_amended "sum" "sum" gBadDev uEx eEx vEx [] featSR offSR
    outSR64 NullArray uEx vEx eEx 0 2
  have h3 := c4_dispatch_axes_amended "add" "sum" gEx uEx eEx vEx [] featSR offSR
    outSR64 NullArray uEx vEx eEx 0 2
  exact ⟨h.2.1 (Or.inl (by decide)),
    h3.2.2.1 (KernelInvocation.sddmmCoo ⟨Backend.host, 64, FloatPrec.f32⟩
      "add" uEx vEx eEx 0 2) rfl,
    h2.2.2.2.2.1 (KernelInvocation.segmentReduce ⟨Backend.host, 64, FloatPrec.f32⟩
      "sum" featSR offSR outSR64 NullArray) rfl⟩

/-- The success or failure of the SpMM dispatch never depends on the reduce
operator: no branch of the validation or dispatch pipeline inspects it. -/
theorem spmm_isOk_reduce_indep (op r1 r2 : String) (g : HeteroGraph) (u e o : NDArray)
    (aux : List NDArray) :
    isOkE (SpMM op r1 g u e o aux) = isOkE (SpMM op r2 g u e o aux) := by
  rw [SpMM, SpMM]
  cases hb : CalcBcastOff op u e with
  | error e1 => rfl
  | ok bc =>
    simp only [ebind_ok]
    cases hx : resolveXPU g.ctx.device_type ("SpMM") with
    | error e1 => rfl
    | ok b =>
      simp only [ebind_ok]
      cases hw : resolveIdType g.dataType with
      | error e1 => rfl
      | ok w =>
        simp only [ebind_ok]
        cases hp : resolveFloatBits o.dtype with
        | error e1 => rfl
        | ok p =>
          simp only [ebind_ok]
          by_cases hf : g.selectFormat csc_code = SparseFormat.kCSC
          · rw [if_pos hf, if_pos hf]; rfl
          · rw [if_neg hf, if_neg hf]
            by_cases hf2 : g.selectFormat csc_code = SparseFormat.kCOO
            · rw [if_pos hf2, if_pos hf2]; rfl
            · rw [if_neg hf2, if_neg hf2]

/-- Counterexample to C5: a SpMM call with reduce max and both auxiliary
tensors null passes every check and resolves a kernel invocation — the
validation layer does not reject it. -/
theorem c5_aux_requirement_counterexample :
    IsNullArray NullArray = true ∧
    capiSpMM gEx "add" "max" uEx eEx vEx NullArray NullArray
      = Except.ok (KernelInvocation.spmmCsc ⟨Backend.host, 64, FloatPrec.f32⟩
          "add" "max" uEx eEx vEx [NullArray, NullArray]) :=
  ⟨rfl, rfl⟩

/-- C5 amended: the entry point never inspects the reduce operator during
validation or dispatch (null aux tensors are skipped by every check), so
whether a SpMM call is accepted is independent of the reduce operator; the
non-nullness of argU/argE for max/min reduces is an unchecked caller
precondition, not something the validation layer rejects. -/
theorem c5_reduce_independent_amended (g : HeteroGraph) (op r1 r2 : String)
    (U E V ArgU ArgE : NDArray) :
    isOkE (capiSpMM g op r1 U E V ArgU ArgE) = isOkE (capiSpMM g op r2 U E V ArgU ArgE) := by
  rw [capiSpMM, capiSpMM]
  cases hc : capiSpMMChecks g U E V ArgU ArgE with
  | error e1 => rfl
  | ok u =>
    cases u
    simp only [ebind_ok]
    exact spmm_isOk_reduce_indep op r1 r2 g U E V [ArgU, ArgE]

/-- The success or failure of the segment-reduce dispatch never depends on the
`arg` tensor: it is only carried into the kernel invocation payload. -/
theorem segred_isOk_arg_indep (op : String) (feat offsets out a1 a2 : NDArray) :
    isOkE (SegmentReduceDispatch op feat offsets out a1)
      = isOkE (SegmentReduceDispatch op feat offsets out a2) := by
  rw [SegmentReduceDispatch, SegmentReduceDispatch]
  cases hx : resolveXPU feat.ctx.device_type ("SegmentReduce") with
  | error e1 => rfl
  | ok b =>
    simp only [ebind_ok]
    cases hw : resolveIdType offsets.dtype with
    | error e1 => rfl
    | ok w =>
      simp only [ebind_ok]
      cases hp : resolveFloatBits feat.dtype with
      | error e1 => rfl
      | ok p => rfl

/-- Counterexample to C6: the `arg` operand of the SegmentReduce entry point
is non-null and not contiguous, yet the call passes validation and resolves a
kernel invocation — `arg` is excluded from the entry point's contiguity (and
context) check lists. -/
theorem c6_contiguity_counterexample :
    IsNullArray argNC = false ∧ argNC.IsContiguous = false ∧
    capiSegmentReduce "max" featSR offSR outSR32 argNC
      = Except.ok (KernelInvocation.segmentReduce ⟨Backend.host, 64, FloatPrec.f32⟩
          "max" featSR offSR outSR32 argNC) :=
  ⟨rfl, rfl, rfl⟩

/-- C6 amended: a non-contiguous non-null tensor in an entry point's checked
operand list always aborts the call with a not-contiguous error once the
context check passes (before any kernel invocation is resolved), for all four
entry points — but the SegmentReduce entry point's checked list is only
feat/offsets/out, and its outcome is entirely independent of the `arg`
operand, which is never contiguity-checked. -/
theorem c6_contiguity_amended (g : HeteroGraph) (op reduce sop : String)
    (U E V ArgU ArgE lhs rhs out feat offsets sout sarg sarg2 bfeat barg bout : NDArray)
    (lt rt : Nat) (a : NDArray) (n : String) :
    ((a, n) ∈ spmmTensors U E V ArgU ArgE → IsNullArray a = false →
      a.IsContiguous = false →
      CheckCtx g.ctx (spmmTensors U E V ArgU ArgE) = Except.ok () →
      ∃ nm, capiSpMM g op reduce U E V ArgU ArgE
        = Except.error (KernelError.NotContiguous nm)) ∧
    ((a, n) ∈ sddmmTensors lhs rhs out → IsNullArray a = false →
      a.IsContiguous = false →
      CheckCtx g.ctx (sddmmTensors lhs rhs out) = Except.ok () →
      ∃ nm, capiSDDMM g op lhs rhs out lt rt
        = Except.error (KernelError.NotContiguous nm)) ∧
    ((a, n) ∈ [(feat, "feat"), (offsets, "offsets"), (sout, "out")] →
      IsNullArray a = false → a.IsContiguous = false →
      CheckCtx feat.ctx [(feat, "feat"), (offsets, "offsets"), (sout, "out")]
        = Except.ok () →
      ∃ nm, capiSegmentReduce sop feat offsets sout sarg
        = Except.error (KernelError.NotContiguous nm)) ∧
    ((a, n) ∈ [(bfeat, "feat"), (barg, "arg"), (bout, "out")] →
      IsNullArray a = false → a.IsContiguous = false →
      CheckCtx bfeat.ctx [(bfeat, "feat"), (barg, "arg"), (bout, "out")]
        = Except.ok () →
      ∃ nm, capiBwdSegmentCmp bfeat barg bout
        = Except.error (KernelError.NotContiguous nm)) ∧
    (isOkE (capiSegmentReduce sop feat offsets sout sarg)
      = isOkE (capiSegmentReduce sop feat offsets sout sarg2)) := by
  refine ⟨?_, ?_, ?_, ?_, ?_⟩
  · intro hmem hnull hcont hctx
    obtain ⟨nm, hcc⟩ := checkContiguous_mem_err hmem hnull hcont
    refine ⟨nm, ?_⟩
    have hchk : capiSpMMChecks g U E V ArgU ArgE
        = Except.error (KernelError.NotContiguous nm) := by
      rw [capiSpMMChecks, hctx, ebind_ok, hcc, ebind_err]
    rw [capiSpMM, hchk, ebind_err]
  · intro hmem hnull hcont hctx
    obtain ⟨nm, hcc⟩ := checkContiguous_mem_err hmem hnull hcont
    refine ⟨nm, ?_⟩
    have hchk : capiSDDMMChecks g lhs rhs out lt rt
        = Except.error (KernelError.NotContiguous nm) := by
      rw [capiSDDMMChecks, hctx, ebind_ok, hcc, ebind_err]
    rw [capiSDDMM, hchk, ebind_err]
  · intro hmem hnull hcont hctx
    obtain ⟨nm, hcc⟩ := checkContiguous_mem_err hmem hnull hcont
    refine ⟨nm, ?_⟩
    have hchk : capiSegmentReduceChecks feat offsets sout
        = Except.error (KernelError.NotContiguous nm) := by
      rw [capiSegmentReduceChecks, hctx, ebind_ok, hcc]
    rw [capiSegmentReduce, hchk, ebind_err]
  · intro hmem hnull hcont hctx
    obtain ⟨nm, hcc⟩ := checkContiguous_mem_err hmem hnull hcont
    refine ⟨nm, ?_⟩
    have hchk : capiBwdSegmentCmpChecks bfeat barg bout
        = Except.error (KernelError.NotContiguous nm) := by
      rw [capiBwdSegmentCmpChecks, hctx, ebind_ok, hcc]
    rw [capiBwdSegmentCmp, hchk, ebind_err]
  · rw [capiSegmentReduce, capiSegmentReduce]
    cases hc : capiSegmentReduceChecks feat offsets sout with
    | error e1 => rfl
    | ok u =>
      cases u
      simp only [ebind_ok]
      exact segred_isOk_arg_indep sop feat offsets sout sarg sarg2

/-- Witness for the amended C6: a non-contiguous source-feature tensor makes
the SpMM entry point abort with a not-contiguous error. -/
theorem c6_contiguity_amended_witness :
    ∃ nm, capiSpMM gEx "add" "sum" uNC eEx vEx NullArray NullArray
      = Except.error (KernelError.NotContiguous nm) :=
  (c6_contiguity_amended gEx "add" "sum" "sum" uNC eEx vEx NullArray NullArray
    uNC eEx vEx featSR offSR outSR32 NullArray NullArray featSR offSR outSR32
    0 1 uNC "U_data").1 (by decide) rfl rfl (by rfl)

/-- C7: under the engine contract — the CSC matrix's data array is the
canonical-to-CSC edge permutation, the COO physical order coincides with the
canonical order (null permutation), and the selector answers the CSC request
with CSC or COO — GetEdgeMapping returns exactly the permutation of the
selected format, and in particular returns the null sentinel exactly when the
canonical and physical orders coincide. -/
theorem c7_edge_mapping (g : HeteroGraph)
    (hcsc : g.cscData = g.edgePermutation SparseFormat.kCSC)
    (hcoo : g.edgePermutation SparseFormat.kCOO = NullArray)
    (hsel : g.selectFormat csc_code = SparseFormat.kCSC ∨
            g.selectFormat csc_code = SparseFormat.kCOO) :
    GetEdgeMapping g = g.edgePermutation (g.selectFormat csc_code) ∧
    (IsNullArray (GetEdgeMapping g) = true ↔
      IsNullArray (g.edgePermutation (g.selectFormat csc_code)) = true) := by
  have h1 : GetEdgeMapping g = g.edgePermutation (g.selectFormat csc_code) := by
    rcases hsel with h | h
    · rw [GetEdgeMapping, if_pos h, h, hcsc]
    · rw [GetEdgeMapping, if_neg (by rw [h]; intro hq; cases hq), h, hcoo]
  exact ⟨h1, by rw [h1]⟩

/-- Witness for C7: on the concrete graph `gEx`, whose formats all coincide
with the canonical order, GetEdgeMapping returns the (null) permutation of
the selected format. -/
theorem c7_edge_mapping_witness :
    GetEdgeMapping gEx = gEx.edgePermutation (gEx.selectFormat csc_code) ∧
    IsNullArray (GetEdgeMapping gEx) = true :=
  ⟨(c7_edge_mapping gEx rfl rfl (Or.inl (by decide))).1, rfl⟩

/-- C8: both the SpMM and the SDDMM entry point require the graph to carry
exactly one edge type; any other count makes the call fail before dispatch,
and when the context and contiguity checks pass the failure is precisely the
edge-type check's error. -/
theorem c8_single_edge_type (g : HeteroGraph) (op reduce : String)
    (U E V ArgU ArgE lhs rhs out : NDArray) (lt rt : Nat)
    (hne : g.numEdgeTypes ≠ 1) :
    isErrE (capiSpMM g op reduce U E V ArgU ArgE) = true ∧
    isErrE (capiSDDMM g op lhs rhs out lt rt) = true ∧
    (CheckCtx g.ctx (spmmTensors U E V ArgU ArgE) = Except.ok () →
     CheckContiguous (spmmTensors U E V ArgU ArgE) = Except.ok () →
     capiSpMM g op reduce U E V ArgU ArgE
       = Except.error KernelError.EdgeTypeCheckFailed) ∧
    (CheckCtx g.ctx (sddmmTensors lhs rhs out) = Except.ok () →
     CheckContiguous (sddmmTensors lhs rhs out) = Except.ok () →
     capiSDDMM g op lhs rhs out lt rt
       = Except.error KernelError.EdgeTypeCheckFailed) := by
  have het : checkSingleEdgeType g = Except.error KernelError.EdgeTypeCheckFailed := by
    rw [checkSingleEdgeType, if_neg hne]
  refine ⟨?_, ?_, ?_, ?_⟩
  · rw [capiSpMM, capiSpMMChecks]
    cases h1 : CheckCtx g.ctx (spmmTensors U E V ArgU ArgE) with
    | error e1 => rfl
    | ok u =>
      cases u
      simp only [ebind_ok]
      cases h2 : CheckContiguous (spmmTensors U E V ArgU ArgE) with
      | error e1 => rfl
      | ok u2 =>
        cases u2
        simp only [ebind_ok]
        rw [het]
        rfl
  · rw [capiSDDMM, capiSDDMMChecks]
    cases h1 : CheckCtx g.ctx (sddmmTensors lhs rhs out) with
    | error e1 => rfl
    | ok u =>
      cases u
      simp only [ebind_ok]
      cases h2 : CheckContiguous (sddmmTensors lhs rhs out) with
      | error e1 => rfl
      | ok u2 =>
        cases u2
        simp only [ebind_ok]
        rw [het]
        rfl
  · intro hctx hcont
    rw [capiSpMM, capiSpMMChecks, hctx, ebind_ok, hcont, ebind_ok, het, ebind_err,
      ebind_err]
  · intro hctx hcont
    rw [capiSDDMM, capiSDDMMChecks, hctx, ebind_ok, hcont, ebind_ok, het, ebind_err,
      ebind_err]

/-- Witness for C8: the two-edge-type graph `gMulti` makes the SpMM entry
point fail with exactly the edge-type error. -/
theorem c8_single_edge_type_witness :
    isErrE (capiSpMM gMulti "add" "sum" uEx eEx vEx NullArray NullArray) = true ∧
    capiSpMM gMulti "add" "sum" uEx eEx vEx NullArray NullArray
      = Except.error KernelError.EdgeTypeCheckFailed := by
  have h := c8_single_edge_type gMulti "add" "sum" uEx eEx vEx NullArray NullArray
    uEx vEx eEx 0 2 (by decide)
  exact ⟨h.1, h.2.2.1 rfl rfl⟩

/-- C9: each operation's behaviour depends on the graph's format selector only
through a fixed preferred request, independent of the op and reduce
arguments: SpMM and GetEdgeMapping query it only at the CSC code, SDDMM only
at the COO code — two graphs whose selectors agree at that one code give
identical results. -/
theorem c9_preferred_format_requests (g : HeteroGraph) (f : FormatCode → SparseFormat)
    (op reduce : String) (u e o : NDArray) (aux : List NDArray)
    (lhs rhs so : NDArray) (lt rt : Nat) :
    (f csc_code = g.selectFormat csc_code →
      SpMM op reduce { g with selectFormat := f } u e o aux
        = SpMM op reduce g u e o aux ∧
      GetEdgeMapping { g with selectFormat := f } = GetEdgeMapping g) ∧
    (f coo_code = g.selectFormat coo_code →
      SDDMM op { g with selectFormat := f } lhs rhs so lt rt
        = SDDMM op g lhs rhs so lt rt) := by
  constructor
  · intro h
    constructor
    · simp [SpMM, h]
    · simp [GetEdgeMapping, h]
  · intro h
    simp [SDDMM, h]

/-- Witness for C9: replacing `gEx`'s selector by one that agrees with it on
the CSC and COO request codes leaves SpMM, GetEdgeMapping and SDDMM results
unchanged. -/
theorem c9_preferred_format_requests_witness :
    SpMM "add" "sum"
        { gEx with selectFormat := fun c => if c = coo_code then SparseFormat.kCOO
            else SparseFormat.kCSC } uEx eEx vEx []
      = SpMM "add" "sum" gEx uEx eEx vEx [] ∧
    SDDMM "add"
        { gEx with selectFormat := fun c => if c = coo_code then SparseFormat.kCOO
            else SparseFormat.kCSC } uEx vEx eEx 0 2
      = SDDMM "add" gEx uEx vEx eEx 0 2 := by
  have h := c9_preferred_format_requests gEx
    (fun c => if c = coo_code then SparseFormat.kCOO else SparseFormat.kCSC)
    "add" "sum" uEx eEx vEx [] uEx vEx eEx 0 2
  exact ⟨(h.1 rfl).1, h.2 rfl⟩

/-- Counterexample to C10: a BackwardSegmentCmp call whose `arg` tensor has a
float dtype passes both the context and the contiguity check, yet no kernel
is reached — the dispatch itself aborts because the index-width axis cannot
be resolved from `arg`'s dtype. -/
theorem c10_bwd_dispatch_counterexample :
    capiBwdSegmentCmpChecks featSR argWrongDtype outBwd = Except.ok () ∧
    isErrE (capiBwdSegmentCmp featSR argWrongDtype outBwd) = true :=
  ⟨rfl, rfl⟩

/-- C10 amended: the BackwardSegmentCmp entry point validates only context and
contiguity of feat, arg and out (no ndim or leading-dimension check), and a
call passing both checks proceeds directly to the dispatch, which resolves
the backend from feat's context, the index width from arg's dtype and the
float precision from feat's dtype; the kernel is invoked exactly when all
three axes resolve, and a resolver failure aborts the dispatch instead. -/
theorem c10_bwd_dispatch_amended (feat arg out : NDArray) :
    (capiBwdSegmentCmpChecks feat arg out = Except.ok () →
      capiBwdSegmentCmp feat arg out = BackwardSegmentCmpDispatch feat arg out) ∧
    (∀ b w p, resolveXPU feat.ctx.device_type ("BackwardSegmentCmp") = Except.ok b →
      resolveIdType arg.dtype = Except.ok w →
      resolveFloatBits feat.dtype = Except.ok p →
      BackwardSegmentCmpDispatch feat arg out
        = Except.ok (KernelInvocation.bwdSegmentCmp ⟨b, w, p⟩ feat arg out)) ∧
    ((isErrE (resolveXPU feat.ctx.device_type ("BackwardSegmentCmp")) = true ∨
      isErrE (resolveIdType arg.dtype) = true ∨
      isErrE (resolveFloatBits feat.dtype) = true) →
      isErrE (BackwardSegmentCmpDispatch feat arg out) = true) := by
  refine ⟨?_, ?_, ?_⟩
  · intro h
    rw [capiBwdSegmentCmp, h, ebind_ok]
  · intro b w p hb hw hp
    rw [BackwardSegmentCmpDispatch, hb, ebind_ok, hw, ebind_ok, hp, ebind_ok]
  · intro h
    cases hr : BackwardSegmentCmpDispatch feat arg out with
    | error e1 => rfl
    | ok k =>
      obtain ⟨b, w, p, hx, hw, hp, _⟩ := bwd_ok_inversion feat arg out k hr
      rcases h with h1 | h1 | h1
      · rw [hx] at h1; cases h1
      · rw [hw] at h1; cases h1
      · rw [hp] at h1; cases h1

/-- Witness for the amended C10: one-dimensional feat/arg/out tensors (which
would fail any ndim-2 shape check) pass the two checks and reach the kernel
with the axes resolved from feat's context, arg's dtype and feat's dtype. -/
theorem c10_bwd_dispatch_amended_witness :
    feat1d.shape.length = 1 ∧
    capiBwdSegmentCmp feat1d arg1d out1d
      = Except.ok (KernelInvocation.bwdSegmentCmp ⟨Backend.host, 64, FloatPrec.f32⟩
          feat1d arg1d out1d) := by
  have h := c10_bwd_dispatch_amended feat1d arg1d out1d
  refine ⟨rfl, ?_⟩
  rw [h.1 rfl]
  exact h.2.1 Backend.host 64 FloatPrec.f32 rfl rfl rfl

end DglKernel
